import Mathlib

/-!
Shallow embedding of the SafetyAIApp real-time stream-processing and
alert-deduplication pipeline, translated from the Python sources:
  backend/app/core/ai_engine.py         (AIEngine)
  backend/app/services/video_service.py (VideoService)
  backend/app/services/alert_service.py (AlertService)
  backend/app/models/safety.py          (enums and alert models)
Machine reals (Python floats) that only ever enter comparisons of
Euclidean distances against integer thresholds are modelled by comparing
squared integer distances against the squared threshold, which is exact
for integer box centres.  Python `try/except` blocks are modelled either
by total functions (the handler swallows the error) or by explicit
Boolean success flags for external effects (file write, DB insert).
-/

namespace SafetyAI

/-- Object classes, from models/safety.py `ObjectType`. -/
inductive ObjectType where
  | WORKER
  | VISITOR
  | HARD_HAT
  | SAFETY_VEST
  | SAFETY_GOGGLES
  | SAFETY_GLOVES
  | FALL_PROTECTION_HARNESS
  | HELMET
  | MACHINERY
  | FORKLIFT
  | CRANE
  | EXCAVATOR
  | TOOLS
  | HAZARDOUS_MATERIAL
  | SAFETY_BARRIER
  | FIRE_EXTINGUISHER
  | EMERGENCY_EXIT
  | SPILL
  | UNATTENDED_OBJECT
  deriving DecidableEq, Repr

/-- Violation classes, from models/safety.py `ViolationType`. -/
inductive ViolationType where
  | NO_HARD_HAT
  | NO_SAFETY_VEST
  | NO_SAFETY_GOGGLES
  | NO_SAFETY_GLOVES
  | NO_FALL_PROTECTION
  | UNSAFE_PROXIMITY
  | BLOCKED_EXIT
  | FIRE_HAZARD
  | SPILL
  | UNATTENDED_OBJECT
  | UNSAFE_BEHAVIOR
  deriving DecidableEq, Repr

/-- Severity levels, from models/safety.py `SeverityLevel`. -/
inductive SeverityLevel where
  | HIGH
  | MEDIUM
  | LOW
  deriving DecidableEq, Repr

/-- Alert status values, from models/safety.py `AlertStatus`. -/
inductive AlertStatus where
  | NEW
  | IN_PROGRESS
  | RESOLVED
  | DISMISSED
  deriving DecidableEq, Repr

/-- Bounding box `[x1, y1, x2, y2]`, from the detection dicts built in
ai_engine.py `detect_objects` (`"bbox": [int(x1), int(y1), int(x2), int(y2)]`). -/
structure Bbox where
  x1 : Int
  y1 : Int
  x2 : Int
  y2 : Int
  deriving DecidableEq, Repr

/-- One detection dict from ai_engine.py `detect_objects`: mapped object
type, confidence, bounding box.  Confidence is a rational standing for the
Python float. -/
structure Detection where
  type : ObjectType
  confidence : ℚ
  bbox : Bbox
  deriving DecidableEq, Repr

/-- `AIEngine._get_bbox_center`: `((x1 + x2) // 2, (y1 + y2) // 2)`.
Python `//` is floor division, hence `Int.fdiv`. -/
def getBboxCenter (b : Bbox) : Int × Int :=
  (Int.fdiv (b.x1 + b.x2) 2, Int.fdiv (b.y1 + b.y2) 2)

/-- Squared Euclidean distance between two integer centres.  The Python
code compares `np.sqrt (dx**2 + dy**2) < thr`; for integer inputs and an
integer threshold this holds exactly when `dx**2 + dy**2 < thr**2`. -/
def sqDist (a b : Int × Int) : Int :=
  (a.1 - b.1) * (a.1 - b.1) + (a.2 - b.2) * (a.2 - b.2)

/-- `AIEngine._has_nearby_ppe`: true iff some PPE item of the requested
type has its centre strictly within 100 px of the worker centre
(`distance < proximity_threshold` with `proximity_threshold = 100`). -/
def hasNearbyPPE (workerCenter : Int × Int) (ppeItems : List Detection)
    (ppeType : ObjectType) : Bool :=
  ppeItems.any (fun ppe =>
    ppe.type = ppeType && sqDist workerCenter (getBboxCenter ppe.bbox) < 100 * 100)

/-- `AIEngine._check_unsafe_proximity`: centre distance strictly below
`unsafe_threshold = 150` px. -/
def checkUnsafeProximity (workerBbox machineBbox : Bbox) : Bool :=
  sqDist (getBboxCenter workerBbox) (getBboxCenter machineBbox) < 150 * 150

/-- `AIEngine._is_exit_blocked`: scans the WHOLE detection list (the exit
itself included) for a detection whose type is neither WORKER nor VISITOR
with centre strictly within `blocking_threshold = 80` px of the exit
centre. -/
def isExitBlocked (exitBbox : Bbox) (detections : List Detection) : Bool :=
  detections.any (fun d =>
    !(d.type = ObjectType.WORKER || d.type = ObjectType.VISITOR) &&
      sqDist (getBboxCenter exitBbox) (getBboxCenter d.bbox) < 80 * 80)

/-- `PrimaryObject` of models/safety.py, minus the random `object_id`
(a fresh UUID-derived string with no behavioural role). -/
structure PrimaryObject where
  object_type : ObjectType
  bounding_box : Bbox
  confidence : ℚ
  deriving DecidableEq, Repr

/-- `AlertCreate` of models/safety.py: the candidate produced by the
analyzer and consumed by alert creation. -/
structure AlertCreateM where
  violation_type : ViolationType
  severity_level : SeverityLevel
  description : String
  confidence_score : ℚ
  location_id : String
  camera_id : String
  primary_object : PrimaryObject
  snapshot_url : Option String := none
  deriving DecidableEq, Repr

/-- `AIEngine._create_ppe_violation_alert` (the except branch never fires
for well-typed inputs, so the function is total here). -/
def createPpeViolationAlert (worker : Detection) (ppeType : ObjectType)
    (cameraId locationId : String) : AlertCreateM :=
  { violation_type :=
      if ppeType = ObjectType.HARD_HAT then ViolationType.NO_HARD_HAT
      else ViolationType.NO_SAFETY_VEST
    severity_level := SeverityLevel.HIGH
    description := "Worker identified without PPE in " ++ locationId ++ "."
    confidence_score := worker.confidence
    location_id := locationId
    camera_id := cameraId
    primary_object :=
      { object_type := ObjectType.WORKER
        bounding_box := worker.bbox
        confidence := worker.confidence } }

/-- `AIEngine._create_proximity_violation_alert`. -/
def createProximityViolationAlert (worker _machine : Detection)
    (cameraId locationId : String) : AlertCreateM :=
  { violation_type := ViolationType.UNSAFE_PROXIMITY
    severity_level := SeverityLevel.MEDIUM
    description := "Worker too close to machinery in " ++ locationId ++ "."
    confidence_score := worker.confidence
    location_id := locationId
    camera_id := cameraId
    primary_object :=
      { object_type := ObjectType.WORKER
        bounding_box := worker.bbox
        confidence := worker.confidence } }

/-- `AIEngine._create_environmental_hazard_alert`; `violation_desc`
decides between SPILL and BLOCKED_EXIT (`"Spill" in violation_desc`). -/
def createEnvironmentalHazardAlert (hazard : Detection) (isSpill : Bool)
    (cameraId locationId : String) : AlertCreateM :=
  { violation_type :=
      if isSpill then ViolationType.SPILL else ViolationType.BLOCKED_EXIT
    severity_level := SeverityLevel.MEDIUM
    description :=
      (if isSpill then "Spill Detected" else "Blocked Exit")
        ++ " detected in " ++ locationId ++ "."
    confidence_score := hazard.confidence
    location_id := locationId
    camera_id := cameraId
    primary_object :=
      { object_type := hazard.type
        bounding_box := hazard.bbox
        confidence := hazard.confidence } }

/-- Membership test for the PPE group used in `analyze_safety_violations`. -/
def isPpeType (t : ObjectType) : Bool :=
  t = ObjectType.HARD_HAT || t = ObjectType.SAFETY_VEST ||
  t = ObjectType.SAFETY_GOGGLES || t = ObjectType.SAFETY_GLOVES

/-- Membership test for the machinery group used in
`analyze_safety_violations`. -/
def isMachineryType (t : ObjectType) : Bool :=
  t = ObjectType.MACHINERY || t = ObjectType.FORKLIFT ||
  t = ObjectType.CRANE || t = ObjectType.EXCAVATOR

/-- Per-worker candidates emitted by the PPE / proximity section of
`analyze_safety_violations` (hard-hat check, then vest check, then the
machinery proximity loop), in emission order. -/
def workerAlerts (ppeItems machinery : List Detection)
    (cameraId locationId : String) (worker : Detection) : List AlertCreateM :=
  let workerCenter := getBboxCenter worker.bbox
  (if !hasNearbyPPE workerCenter ppeItems ObjectType.HARD_HAT then
      [createPpeViolationAlert worker ObjectType.HARD_HAT cameraId locationId]
    else []) ++
  (if !hasNearbyPPE workerCenter ppeItems ObjectType.SAFETY_VEST then
      [createPpeViolationAlert worker ObjectType.SAFETY_VEST cameraId locationId]
    else []) ++
  machinery.filterMap (fun machine =>
    if checkUnsafeProximity worker.bbox machine.bbox then
      some (createProximityViolationAlert worker machine cameraId locationId)
    else none)

/-- `AIEngine.analyze_safety_violations`: the full rule pass over one
frame's detections, preserving the source's grouping and emission order
(workers section, then spills, then blocked exits). -/
def analyzeSafetyViolations (detections : List Detection)
    (cameraId locationId : String) : List AlertCreateM :=
  let workers := detections.filter (fun d => d.type = ObjectType.WORKER)
  let ppeItems := detections.filter (fun d => isPpeType d.type)
  let machinery := detections.filter (fun d => isMachineryType d.type)
  let spills := detections.filter (fun d => d.type = ObjectType.SPILL)
  let exits := detections.filter (fun d => d.type = ObjectType.EMERGENCY_EXIT)
  (workers.flatMap (workerAlerts ppeItems machinery cameraId locationId)) ++
  spills.map (fun spill =>
    createEnvironmentalHazardAlert spill true cameraId locationId) ++
  exits.filterMap (fun exitObj =>
    if isExitBlocked exitObj.bbox detections then
      some (createEnvironmentalHazardAlert exitObj false cameraId locationId)
    else none)

/-- UTC timestamp at the granularity the pipeline observes
(`datetime.utcnow()` formatted with `%Y%m%d` / `%H%M%S`). -/
structure DateTimeM where
  year : Nat
  month : Nat
  day : Nat
  hour : Nat
  minute : Nat
  second : Nat
  deriving DecidableEq, Repr

/-- Fixed-width decimal rendering of `n` on `w` digits, least significant
digit last, as produced by `strftime` field formatting. -/
def padDigits : Nat → Nat → List Char
  | 0, _ => []
  | w + 1, n => padDigits w (n / 10) ++ [Nat.digitChar (n % 10)]

/-- Fixed-width decimal rendering as a string. -/
def padNum (w n : Nat) : String :=
  String.mk (padDigits w n)

/-- `AlertService.create_alert` alert-id generation:
`f"AL-{utcnow():%Y%m%d}-{utcnow():%H%M%S}"` — date then second-of-day,
both taken from the wall clock at creation time. -/
def mkAlertId (t : DateTimeM) : String :=
  "AL-" ++ padNum 4 t.year ++ padNum 2 t.month ++ padNum 2 t.day ++ "-" ++
    padNum 2 t.hour ++ padNum 2 t.minute ++ padNum 2 t.second

/-- The alert document `AlertService.create_alert` inserts into the store
(fields of models/safety.py `Alert` that the pipeline writes). -/
structure AlertDoc where
  alert_id : String
  timestamp : DateTimeM
  violation_type : ViolationType
  severity_level : SeverityLevel
  description : String
  confidence_score : ℚ
  location_id : String
  camera_id : String
  primary_object : PrimaryObject
  snapshot_url : Option String
  status : AlertStatus
  deriving DecidableEq, Repr

/-- `AlertService.create_alert`: builds the document (status NEW, id from
the clock) and inserts it.  `persistOk` models the success of
`insert_one`; the surrounding `except` swallows a failed insert and the
function returns `None` (here `none`). -/
def createAlertService (now : DateTimeM) (persistOk : Bool)
    (alertData : AlertCreateM) : Option AlertDoc :=
  if persistOk then
    some
      { alert_id := mkAlertId now
        timestamp := now
        violation_type := alertData.violation_type
        severity_level := alertData.severity_level
        description := alertData.description
        confidence_score := alertData.confidence_score
        location_id := alertData.location_id
        camera_id := alertData.camera_id
        primary_object := alertData.primary_object
        snapshot_url := alertData.snapshot_url
        status := AlertStatus.NEW }
  else none

/-- The `primary_violation` value in an analysis-result dict: either an
`AlertCreate` object or a raw dict (the code defends against both).  A
dict carries a Python-truthiness flag (`isEmpty = true` means falsy);
attribute access `.violation_type` on a dict raises `AttributeError`. -/
inductive PrimaryViolation where
  | obj (a : AlertCreateM)
  | dict (isEmpty : Bool)
  deriving DecidableEq, Repr

/-- Python truthiness of `analysis_result.get("primary_violation")`. -/
def pvTruthy : Option PrimaryViolation → Bool
  | none => false
  | some (PrimaryViolation.obj _) => true
  | some (PrimaryViolation.dict isEmpty) => !isEmpty

/-- The slice of the analysis-result dict the alert path reads. -/
structure AnalysisResult where
  alert_required : Bool
  primary_violation : Option PrimaryViolation
  deriving DecidableEq, Repr

/-- Analysis result wrapping a well-formed `AlertCreate` candidate. -/
def mkAnalysis (a : AlertCreateM) : AnalysisResult :=
  { alert_required := true, primary_violation := some (PrimaryViolation.obj a) }

/-- The cooldown test of `VideoService._should_create_alert` for a known
violation type: admit iff no entry, or `time_since_last >= cooldown`.
Times are seconds as naturals; Python computes a float difference that
can only be negative if the clock steps back, in which case both the
float test (`negative < cooldown`) and the truncated `Nat` test
(`0 < cooldown`) refuse, so truncated subtraction is faithful for any
positive cooldown. -/
def cooldownAllows (lastAlertTime : ViolationType → Option Nat)
    (violationType : ViolationType) (now cooldown : Nat) : Bool :=
  match lastAlertTime violationType with
  | none => true
  | some last => if now - last < cooldown then false else true

/-- `VideoService._should_create_alert`.  A falsy `primary_violation`
returns `False`; reading `.violation_type` off a dict raises, and the
`except` handler returns `True` ("default to allowing alert creation");
otherwise the cooldown test decides. -/
def shouldCreateAlert (analysisResult : AnalysisResult)
    (lastAlertTime : ViolationType → Option Nat) (cooldown now : Nat) : Bool :=
  if !pvTruthy analysisResult.primary_violation then false
  else
    match analysisResult.primary_violation with
    | some (PrimaryViolation.obj a) =>
        cooldownAllows lastAlertTime a.violation_type now cooldown
    | some (PrimaryViolation.dict _) => true
    | none => false

/-- The worker's `last_alert_time[violation_type] = utcnow()` update. -/
def updateLastAlert (m : ViolationType → Option Nat)
    (violationType : ViolationType) (t : Nat) : ViolationType → Option Nat :=
  fun v => if v = violationType then some t else m v

/-- `VideoService._save_snapshot`: writes the frame under
`alerts/<camera_id>/<date>/<time>_<type>.jpg`; any failure is caught and
`None` is returned (`writeOk` models the write succeeding). -/
def saveSnapshot (writeOk : Bool) (cameraId : String) (now : DateTimeM)
    (violationName : String) : Option String :=
  if writeOk then
    some ("alerts/" ++ cameraId ++ "/" ++ padNum 4 now.year ++ "/" ++
      padNum 2 now.month ++ "/" ++ padNum 2 now.day ++ "/" ++
      padNum 2 now.hour ++ padNum 2 now.minute ++ padNum 2 now.second ++
      "_" ++ violationName ++ ".jpg")
  else none

/-- Observable effects of one frame's alert path, in program order. -/
inductive PipelineEvent where
  | gateCheck
  | snapshotWrite
  | persistAlert
  | cooldownUpdate
  deriving DecidableEq, Repr

/-- `VideoService._create_alert_from_analysis`: a dict-shaped primary
violation is rejected; otherwise the snapshot is attempted, an
`AlertCreate` is rebuilt with the caller's location/camera and the
snapshot reference, and `AlertService.create_alert` persists it.  Every
failure path is caught and reported as `false` — nothing escapes.
Returns (created?, the persisted document, effect events). -/
def createAlertFromAnalysis (primaryViolation : PrimaryViolation)
    (cameraId locationId : String) (now : DateTimeM)
    (writeOk persistOk : Bool) :
    Bool × Option AlertDoc × List PipelineEvent :=
  match primaryViolation with
  | PrimaryViolation.dict _ => (false, none, [])
  | PrimaryViolation.obj a =>
      let snapshotUrl := saveSnapshot writeOk cameraId now "violation"
      let alertData : AlertCreateM :=
        { violation_type := a.violation_type
          severity_level := a.severity_level
          description := a.description
          confidence_score := a.confidence_score
          location_id := locationId
          camera_id := cameraId
          primary_object := a.primary_object
          snapshot_url := snapshotUrl }
      match createAlertService now persistOk alertData with
      | some doc =>
          (true, some doc, [PipelineEvent.snapshotWrite, PipelineEvent.persistAlert])
      | none =>
          (false, none, [PipelineEvent.snapshotWrite, PipelineEvent.persistAlert])

/-- One sampled frame of the live worker loop
(`VideoService._process_video_stream`, alert section): gate check, then
`_create_alert_from_analysis`, then — only if creation succeeded — the
cooldown-map update.  Returns the new cooldown map, whether an alert was
created, and the effect events in program order. -/
def processFrameLive (m : ViolationType → Option Nat) (cooldown : Nat)
    (analysis : Option AnalysisResult) (now : DateTimeM) (nowSec : Nat)
    (cameraId locationId : String) (writeOk persistOk : Bool) :
    (ViolationType → Option Nat) × Bool × List PipelineEvent :=
  match analysis with
  | none => (m, false, [])
  | some a =>
      if a.alert_required then
        if shouldCreateAlert a m cooldown nowSec then
          match a.primary_violation with
          | some pv =>
              let r := createAlertFromAnalysis pv cameraId locationId now writeOk persistOk
              if r.1 then
                match pv with
                | PrimaryViolation.obj ac =>
                    (updateLastAlert m ac.violation_type nowSec, true,
                      PipelineEvent.gateCheck :: r.2.2 ++ [PipelineEvent.cooldownUpdate])
                | PrimaryViolation.dict _ => (m, true, PipelineEvent.gateCheck :: r.2.2)
              else (m, false, PipelineEvent.gateCheck :: r.2.2)
          | none => (m, false, [PipelineEvent.gateCheck])
        else (m, false, [PipelineEvent.gateCheck])
      else (m, false, [])

/-- Live worker loop over a list of (analysis, time-in-seconds) sampled
frames with all external effects succeeding; returns the final cooldown
map and the number of alerts persisted. -/
def runLive (dtOf : Nat → DateTimeM) (cameraId locationId : String)
    (cooldown : Nat) (m : ViolationType → Option Nat) :
    List (AnalysisResult × Nat) → (ViolationType → Option Nat) × Nat
  | [] => (m, 0)
  | (a, t) :: rest =>
      let r := processFrameLive m cooldown (some a) (dtOf t) t cameraId
        locationId true true
      let acc := runLive dtOf cameraId locationId cooldown r.1 rest
      (acc.1, (if r.2.1 then 1 else 0) + acc.2)

/-- One sampled frame of `VideoService.process_video_file`: when an alert
is required, the primary violation is persisted directly through
`AlertService.create_alert` (after the `location_id == "unknown"` patch)
— no cooldown gate and no snapshot write on this path. -/
def processSampledFrameBatch (analysis : Option AnalysisResult)
    (now : DateTimeM) (persistOk : Bool) : Option AlertDoc :=
  match analysis with
  | none => none
  | some a =>
      if a.alert_required then
        match a.primary_violation with
        | some (PrimaryViolation.obj ac) =>
            let alertData :=
              if ac.location_id = "unknown" then
                { ac with location_id := "main_entrance" }
              else ac
            createAlertService now persistOk alertData
        | _ => none
      else none

/-- Terminal status written to `uploaded_videos[upload_id]["status"]` by
`VideoService.process_video_file`. -/
inductive UploadStatus where
  | processing
  | completed
  | timeout
  deriving DecidableEq, Repr

/-- Final observable outcome of a batch file job: frames read, persisted
alert count, reported progress percent, reported status. -/
structure BatchResult where
  framesRead : Nat
  alertsGenerated : Nat
  progress : ℚ
  status : UploadStatus
  deriving DecidableEq, Repr

/-- The frame loop of `VideoService.process_video_file`.  At the top of
each iteration the elapsed wall clock (`times k`, where `k` frames have
been read so far) is compared against the deadline and the loop breaks on
`elapsed > maxTime`; then a frame is read (`ret` is false once
`totalFrames` frames are consumed — EndOfStream); every `frameSkip`-th
frame is analyzed, possibly persisting an alert, and progress is set to
`frame_count / total_frames * 100`.  Fuel `totalFrames + 1` is enough:
every non-final iteration reads a frame. -/
def fileLoop (times : Nat → Nat) (analysisAt : Nat → Option AnalysisResult)
    (dtOf : Nat → DateTimeM) (persistOk : Bool)
    (maxTime totalFrames frameSkip : Nat) :
    Nat → Nat → Nat → ℚ → Nat × Nat × ℚ
  | 0, frameCount, alerts, progress => (frameCount, alerts, progress)
  | fuel + 1, frameCount, alerts, progress =>
      if times frameCount > maxTime then (frameCount, alerts, progress)
      else if frameCount = totalFrames then (frameCount, alerts, progress)
      else
        let fc := frameCount + 1
        let sampled := fc % frameSkip = 0
        let alerts2 :=
          if sampled then
            alerts +
              (if (processSampledFrameBatch (analysisAt fc) (dtOf fc) persistOk).isSome
                then 1 else 0)
          else alerts
        let progress2 :=
          if sampled then (fc : ℚ) / (totalFrames : ℚ) * 100 else progress
        fileLoop times analysisAt dtOf persistOk maxTime totalFrames frameSkip
          fuel fc alerts2 progress2

/-- `VideoService.process_video_file`, end to end: run the frame loop,
then the final-status block re-reads the clock (`finalTime`), marks the
job `timeout` iff `finalTime > maxTime` else `completed`, and
unconditionally writes `processing_progress = 100`. -/
def processVideoFile (times : Nat → Nat) (finalTime : Nat)
    (analysisAt : Nat → Option AnalysisResult) (dtOf : Nat → DateTimeM)
    (persistOk : Bool) (maxTime totalFrames frameSkip : Nat) : BatchResult :=
  let r := fileLoop times analysisAt dtOf persistOk maxTime totalFrames
    frameSkip (totalFrames + 1) 0 0 0
  { framesRead := r.1
    alertsGenerated := r.2.1
    progress := 100
    status := if finalTime > maxTime then UploadStatus.timeout
      else UploadStatus.completed }

/-- Per-camera stream bookkeeping dict created by
`VideoService.start_video_stream`. -/
structure StreamInfo where
  stream_url : String
  location_id : String
  is_active : Bool
  start_time : Nat
  frame_count : Nat
  alert_count : Nat
  deriving DecidableEq, Repr

/-- The `VideoService` registries: `active_streams` (camera_id → stream
info) and `processing_tasks` (camera_id → spawned task), plus a counter
standing for `asyncio.create_task` handing out fresh task identities. -/
structure VideoServiceState where
  activeStreams : List (String × StreamInfo)
  processingTasks : List (String × Nat)
  nextTaskId : Nat
  deriving DecidableEq, Repr

/-- Number of entries registered under a key in an association list. -/
def countKey (k : String) (l : List (String × α)) : Nat :=
  l.countP (fun p => p.1 = k)

/-- `VideoService.start_video_stream`: if the camera already has an
entry in `active_streams`, log a warning and return — no side effects;
otherwise register the stream info and spawn the worker task. -/
def startVideoStream (s : VideoServiceState)
    (cameraId streamUrl locationId : String) (now : Nat) : VideoServiceState :=
  if (s.activeStreams.find? (fun p => p.1 = cameraId)).isSome then s
  else
    { activeStreams :=
        (cameraId,
          { stream_url := streamUrl
            location_id := locationId
            is_active := true
            start_time := now
            frame_count := 0
            alert_count := 0 }) :: s.activeStreams
      processingTasks := (cameraId, s.nextTaskId) :: s.processingTasks
      nextTaskId := s.nextTaskId + 1 }

/-- The alert gate iterated over a sequence of candidate times for one
(camera_id, violation_type) key: each admitted candidate (with creation
succeeding, the normal path) stamps the cooldown map before the next is
evaluated, exactly as one camera's single worker does.  Returns how many
candidates were admitted. -/
def runGate (cooldown : Nat) (violationType : ViolationType) :
    (ViolationType → Option Nat) → List Nat → Nat
  | _, [] => 0
  | m, t :: ts =>
      if cooldownAllows m violationType t cooldown then
        1 + runGate cooldown violationType (updateLastAlert m violationType t) ts
      else runGate cooldown violationType m ts

/-- Whether evaluating the cooldown check on this analysis result raises
inside `_should_create_alert`: a truthy dict-shaped `primary_violation`
passes the falsy guard and then `.violation_type` raises
`AttributeError`. -/
def gateRaises (analysisResult : AnalysisResult) : Bool :=
  match analysisResult.primary_violation with
  | some (PrimaryViolation.dict isEmpty) => !isEmpty
  | _ => false

/-- Concrete No-Hard-Hat candidate used by the concrete evaluations. -/
def sampleCandidate : AlertCreateM :=
  { violation_type := ViolationType.NO_HARD_HAT
    severity_level := SeverityLevel.HIGH
    description := "Worker identified without hard hat in loc."
    confidence_score := 9 / 10
    location_id := "loc"
    camera_id := "CAM-1"
    primary_object :=
      { object_type := ObjectType.WORKER
        bounding_box := { x1 := 90, y1 := 90, x2 := 110, y2 := 110 }
        confidence := 9 / 10 } }

/-- Concrete wall-clock instant used by the concrete evaluations. -/
def sampleTime : DateTimeM :=
  { year := 2025, month := 1, day := 2, hour := 3, minute := 4, second := 5 }

/-- Concrete No-Safety-Vest candidate, distinct from `sampleCandidate`. -/
def sampleVestCandidate : AlertCreateM :=
  { violation_type := ViolationType.NO_SAFETY_VEST
    severity_level := SeverityLevel.HIGH
    description := "Worker identified without safety vest in loc."
    confidence_score := 4 / 5
    location_id := "loc"
    camera_id := "CAM-1"
    primary_object :=
      { object_type := ObjectType.WORKER
        bounding_box := { x1 := 90, y1 := 90, x2 := 110, y2 := 110 }
        confidence := 4 / 5 } }

/-- Concrete detected worker with no PPE anywhere in the frame. -/
def sampleWorkerDetection : Detection :=
  { type := ObjectType.WORKER
    confidence := 1
    bbox := { x1 := 90, y1 := 90, x2 := 110, y2 := 110 } }

/-- Concrete single-detection frame: one emergency exit, nothing else. -/
def loneExitDetection : Detection :=
  { type := ObjectType.EMERGENCY_EXIT
    confidence := 1
    bbox := { x1 := 0, y1 := 0, x2 := 10, y2 := 10 } }

section Theorems

/-- Once the cooldown map holds a stamp, every candidate of that key
presented strictly inside the stamp's 30-second window is refused and
the map is unchanged. -/
theorem runGate_eq_zero (vt : ViolationType) (u : Nat)
    (m : ViolationType → Option Nat) (hm : m vt = some u) (ts : List Nat)
    (h : ∀ t ∈ ts, t < u + 30) : runGate 30 vt m ts = 0 := by
  induction ts with
  | nil => rfl
  | cons t ts ih =>
    have hdeny : cooldownAllows m vt t 30 = false := by
      simp only [cooldownAllows, hm]
      rw [if_pos (show t - u < 30 by
        have := h t (List.mem_cons_self t ts); omega)]
    simp only [runGate, hdeny, Bool.false_eq_true, if_false]
    exact ih (fun x hx => h x (List.mem_cons_of_mem _ hx))

/-- C1: the alert gate admits a candidate iff its (camera_id,
violation_type) key — the per-camera worker's cooldown map keyed by
violation type — has no entry, or the last-accepted timestamp is at
least the 30-second cooldown window old; consequently among candidates
of one key presented within one 30-second window at most one is
admitted, and a candidate presented once the window has elapsed since
the last admission is admitted. -/
theorem alert_gate_cooldown_admission :
    (∀ (a : AlertCreateM) (m : ViolationType → Option Nat) (now : Nat),
        shouldCreateAlert (mkAnalysis a) m 30 now = true ↔
          (m a.violation_type = none ∨
            ∃ last, m a.violation_type = some last ∧ last + 30 ≤ now)) ∧
    (∀ (vt : ViolationType) (m : ViolationType → Option Nat) (a : Nat)
        (ts : List Nat), (∀ t ∈ ts, a ≤ t ∧ t < a + 30) →
        runGate 30 vt m ts ≤ 1) ∧
    (∀ (vt : ViolationType) (m : ViolationType → Option Nat) (last now : Nat),
        m vt = some last → last + 30 ≤ now →
        cooldownAllows m vt now 30 = true) := by
  refine ⟨?_, ?_, ?_⟩
  · intro a m now
    simp only [shouldCreateAlert, mkAnalysis, pvTruthy, cooldownAllows,
      Bool.not_true, Bool.false_eq_true, if_false]
    cases h : m a.violation_type with
    | none => simp
    | some last =>
      show (if now - last < 30 then false else true) = true ↔ _
      split_ifs with hlt
      · simp only [Bool.false_eq_true, false_iff]
        rintro (hnone | ⟨l, hl, hge⟩)
        · exact absurd hnone (by simp)
        · have hlast : last = l := by injection hl
          omega
      · simp only [true_iff]
        exact Or.inr ⟨last, rfl, by omega⟩
  · intro vt m a ts hwin
    induction ts generalizing m with
    | nil => simp [runGate]
    | cons t ts ih =>
      have ht := hwin t (List.mem_cons_self t ts)
      by_cases hadm : cooldownAllows m vt t 30 = true
      · simp only [runGate, hadm, if_true]
        have hstamp : updateLastAlert m vt t vt = some t := by
          simp [updateLastAlert]
        have hzero : runGate 30 vt (updateLastAlert m vt t) ts = 0 :=
          runGate_eq_zero vt t _ hstamp ts (fun x hx => by
            have := hwin x (List.mem_cons_of_mem _ hx); omega)
        omega
      · simp only [runGate, hadm, Bool.false_eq_true, if_false]
        exact ih m (fun x hx => hwin x (List.mem_cons_of_mem _ hx))
  · intro vt m last now hm hge
    simp only [cooldownAllows, hm]
    rw [if_neg (show ¬ now - last < 30 by omega)]

/-- Witness for C1 at concrete inputs: the iff at an empty map, at most
one admission among three candidates inside one window, and admission
after the window elapses. -/
theorem alert_gate_cooldown_admission_witness :
    (shouldCreateAlert (mkAnalysis sampleCandidate) (fun _ => none) 30 40 = true ↔
      ((fun (_ : ViolationType) => (none : Option Nat))
          sampleCandidate.violation_type = none ∨
        ∃ last, (fun (_ : ViolationType) => (none : Option Nat))
            sampleCandidate.violation_type = some last ∧ last + 30 ≤ 40)) ∧
    runGate 30 ViolationType.NO_HARD_HAT (fun _ => none) [100, 101, 120] ≤ 1 ∧
    cooldownAllows (fun _ => some 10) ViolationType.NO_HARD_HAT 45 30 = true :=
  ⟨alert_gate_cooldown_admission.1 sampleCandidate (fun _ => none) 40,
    alert_gate_cooldown_admission.2.1 ViolationType.NO_HARD_HAT (fun _ => none)
      100 [100, 101, 120] (by decide),
    alert_gate_cooldown_admission.2.2 ViolationType.NO_HARD_HAT (fun _ => some 10)
      10 45 rfl (by decide)⟩

/-- C2: starting a stream twice for the same camera without an
intervening stop leaves exactly one stream handle and one worker task
registered for that camera; the second call returns the state of the
first call unchanged — a no-op with a warning, no second worker spawned
and the existing handle untouched. -/
theorem start_stream_twice_single_handle (s : VideoServiceState)
    (cameraId streamUrl locationId : String) (now1 now2 : Nat)
    (h1 : countKey cameraId s.activeStreams = 0)
    (h2 : countKey cameraId s.processingTasks = 0) :
    startVideoStream (startVideoStream s cameraId streamUrl locationId now1)
        cameraId streamUrl locationId now2 =
      startVideoStream s cameraId streamUrl locationId now1 ∧
    countKey cameraId
      (startVideoStream s cameraId streamUrl locationId now1).activeStreams = 1 ∧
    countKey cameraId
      (startVideoStream s cameraId streamUrl locationId now1).processingTasks = 1 := by
  have hfind : s.activeStreams.find? (fun p => p.1 = cameraId) = none := by
    rw [List.find?_eq_none]
    intro x hx
    have := List.countP_eq_zero.mp h1 x hx
    simpa using this
  have hfst :
      startVideoStream s cameraId streamUrl locationId now1 =
        { activeStreams :=
            (cameraId,
              { stream_url := streamUrl
                location_id := locationId
                is_active := true
                start_time := now1
                frame_count := 0
                alert_count := 0 }) :: s.activeStreams
          processingTasks := (cameraId, s.nextTaskId) :: s.processingTasks
          nextTaskId := s.nextTaskId + 1 } := by
    rw [startVideoStream, if_neg (by simp [hfind])]
  refine ⟨?_, ?_, ?_⟩
  · rw [hfst, startVideoStream, if_pos (by simp [List.find?])]
  · rw [hfst]
    simp only [countKey, List.countP_cons]
    rw [countKey] at h1
    simp [h1]
  · rw [hfst]
    simp only [countKey, List.countP_cons]
    rw [countKey] at h2
    simp [h2]

/-- Witness for C2 at a concrete empty registry. -/
theorem start_stream_twice_single_handle_witness :
    startVideoStream
        (startVideoStream ⟨[], [], 0⟩ "CAM-1" "rtsp://u" "loc" 11)
        "CAM-1" "rtsp://u" "loc" 12 =
      startVideoStream ⟨[], [], 0⟩ "CAM-1" "rtsp://u" "loc" 11 ∧
    countKey "CAM-1"
      (startVideoStream ⟨[], [], 0⟩ "CAM-1" "rtsp://u" "loc" 11).activeStreams = 1 ∧
    countKey "CAM-1"
      (startVideoStream ⟨[], [], 0⟩ "CAM-1" "rtsp://u" "loc" 11).processingTasks = 1 :=
  start_stream_twice_single_handle ⟨[], [], 0⟩ "CAM-1" "rtsp://u" "loc" 11 12
    (by decide) (by decide)

/-- C10: the gate fails open on internal error — whenever evaluating the
cooldown check raises (a truthy dict-shaped primary violation, whose
`.violation_type` access raises `AttributeError`), `_should_create_alert`
returns true and the candidate is admitted. -/
theorem gate_fails_open_on_error (analysisResult : AnalysisResult)
    (m : ViolationType → Option Nat) (cooldown now : Nat)
    (h : gateRaises analysisResult = true) :
    shouldCreateAlert analysisResult m cooldown now = true := by
  unfold gateRaises at h
  unfold shouldCreateAlert pvTruthy
  cases hpv : analysisResult.primary_violation with
  | none => rw [hpv] at h; exact absurd h (by simp)
  | some pv =>
    cases pv with
    | obj a => rw [hpv] at h; exact absurd h (by simp)
    | dict isEmpty =>
      rw [hpv] at h
      cases isEmpty with
      | false => simp
      | true => exact absurd h (by simp)

/-- Witness for C10: a nonempty dict-shaped primary violation is
admitted regardless of the cooldown state. -/
theorem gate_fails_open_on_error_witness :
    shouldCreateAlert
      { alert_required := true
        primary_violation := some (PrimaryViolation.dict false) }
      (fun _ => some 0) 30 1 = true :=
  gate_fails_open_on_error _ (fun _ => some 0) 30 1 (by decide)

/-- C5: when the evidence-snapshot write fails, the alert is still
persisted, its snapshot reference is null, and the pipeline call returns
normally (the embedding is a total function: every `except` handler in
`_save_snapshot` and `_create_alert_from_analysis` swallows the error). -/
theorem evidence_failure_never_blocks_alert (a : AlertCreateM)
    (cameraId locationId : String) (now : DateTimeM) :
    (createAlertFromAnalysis (PrimaryViolation.obj a) cameraId locationId
        now false true).1 = true ∧
    ∃ doc,
      (createAlertFromAnalysis (PrimaryViolation.obj a) cameraId locationId
          now false true).2.1 = some doc ∧
      doc.snapshot_url = none ∧ doc.status = AlertStatus.NEW := by
  simp [createAlertFromAnalysis, saveSnapshot, createAlertService]

/-- C8 counterexample: on a concrete admitted candidate the worker's
effect trace is gate check, snapshot write, alert persistence, and only
THEN the cooldown-map update — the update does not precede the
completion of persistence, refuting the claimed ordering. -/
theorem cooldown_update_precedes_persist_refuted :
    (processFrameLive (fun _ => none) 30 (some (mkAnalysis sampleCandidate))
        sampleTime 0 "CAM-1" "loc" true true).2.2 =
      [PipelineEvent.gateCheck, PipelineEvent.snapshotWrite,
        PipelineEvent.persistAlert, PipelineEvent.cooldownUpdate] ∧
    ¬ ((processFrameLive (fun _ => none) 30 (some (mkAnalysis sampleCandidate))
          sampleTime 0 "CAM-1" "loc" true true).2.2.indexOf
            PipelineEvent.cooldownUpdate <
        (processFrameLive (fun _ => none) 30 (some (mkAnalysis sampleCandidate))
          sampleTime 0 "CAM-1" "loc" true true).2.2.indexOf
            PipelineEvent.persistAlert) := by
  constructor
  · simp [processFrameLive, mkAnalysis, shouldCreateAlert, pvTruthy,
      cooldownAllows, createAlertFromAnalysis, saveSnapshot, createAlertService]
  · simp only [processFrameLive, mkAnalysis, shouldCreateAlert, pvTruthy,
      cooldownAllows, createAlertFromAnalysis, saveSnapshot, createAlertService]
    decide

/-- C8 amended: for every admitted candidate whose persistence succeeds,
the cooldown entry for the key is updated to the admission time
immediately AFTER downstream persistence completes (persistence strictly
precedes the update in the effect trace), and the update is in place
before the single-threaded worker evaluates any later frame, so the next
gate check on the key sees it. -/
theorem cooldown_update_follows_persistence
    (m : ViolationType → Option Nat) (ac : AlertCreateM)
    (cameraId locationId : String) (now : DateTimeM) (nowSec cooldown : Nat)
    (h : shouldCreateAlert (mkAnalysis ac) m cooldown nowSec = true) :
    (processFrameLive m cooldown (some (mkAnalysis ac)) now nowSec cameraId
        locationId true true).2.2 =
      [PipelineEvent.gateCheck, PipelineEvent.snapshotWrite,
        PipelineEvent.persistAlert, PipelineEvent.cooldownUpdate] ∧
    (processFrameLive m cooldown (some (mkAnalysis ac)) now nowSec cameraId
        locationId true true).2.2.indexOf PipelineEvent.persistAlert <
      (processFrameLive m cooldown (some (mkAnalysis ac)) now nowSec cameraId
        locationId true true).2.2.indexOf PipelineEvent.cooldownUpdate ∧
    (processFrameLive m cooldown (some (mkAnalysis ac)) now nowSec cameraId
        locationId true true).1 ac.violation_type = some nowSec := by
  have h2 : shouldCreateAlert
      { alert_required := true,
        primary_violation := some (PrimaryViolation.obj ac) } m cooldown
      nowSec = true := h
  have hev : (processFrameLive m cooldown (some (mkAnalysis ac)) now nowSec
      cameraId locationId true true) =
      (updateLastAlert m ac.violation_type nowSec, true,
        [PipelineEvent.gateCheck, PipelineEvent.snapshotWrite,
          PipelineEvent.persistAlert, PipelineEvent.cooldownUpdate]) := by
    simp [processFrameLive, mkAnalysis, h2, createAlertFromAnalysis,
      saveSnapshot, createAlertService]
  rw [hev]
  refine ⟨rfl, ?_, ?_⟩
  · show List.indexOf PipelineEvent.persistAlert
        [PipelineEvent.gateCheck, PipelineEvent.snapshotWrite,
          PipelineEvent.persistAlert, PipelineEvent.cooldownUpdate] <
      List.indexOf PipelineEvent.cooldownUpdate
        [PipelineEvent.gateCheck, PipelineEvent.snapshotWrite,
          PipelineEvent.persistAlert, PipelineEvent.cooldownUpdate]
    decide
  · simp [updateLastAlert]

/-- Witness for C8 amended at a concrete admitted candidate. -/
theorem cooldown_update_follows_persistence_witness :
    (processFrameLive (fun _ => none) 30 (some (mkAnalysis sampleCandidate))
        sampleTime 7 "CAM-1" "loc" true true).2.2 =
      [PipelineEvent.gateCheck, PipelineEvent.snapshotWrite,
        PipelineEvent.persistAlert, PipelineEvent.cooldownUpdate] ∧
    (processFrameLive (fun _ => none) 30 (some (mkAnalysis sampleCandidate))
        sampleTime 7 "CAM-1" "loc" true true).2.2.indexOf
          PipelineEvent.persistAlert <
      (processFrameLive (fun _ => none) 30 (some (mkAnalysis sampleCandidate))
        sampleTime 7 "CAM-1" "loc" true true).2.2.indexOf
          PipelineEvent.cooldownUpdate ∧
    (processFrameLive (fun _ => none) 30 (some (mkAnalysis sampleCandidate))
        sampleTime 7 "CAM-1" "loc" true true).1
        sampleCandidate.violation_type = some 7 :=
  cooldown_update_follows_persistence (fun _ => none) sampleCandidate "CAM-1"
    "loc" sampleTime 7 30 (by decide)

/-- C4 counterexample: a two-frame batch run (both sampled frames
triggering a No-Hard-Hat candidate for the same camera, read well inside
one 30-second window) persists TWO alerts, not exactly one — the batch
path has no cooldown gate. -/
theorem batch_chain_equals_live_chain_refuted :
    (processVideoFile (fun k => k) 2
        (fun _ => some (mkAnalysis sampleCandidate)) (fun _ => sampleTime)
        true 600 2 1).alertsGenerated = 2 ∧
    ¬ ((processVideoFile (fun k => k) 2
          (fun _ => some (mkAnalysis sampleCandidate)) (fun _ => sampleTime)
          true 600 2 1).alertsGenerated = 1) := by
  constructor
  · rfl
  · intro hcontra
    rw [show (processVideoFile (fun k => k) 2
        (fun _ => some (mkAnalysis sampleCandidate)) (fun _ => sampleTime)
        true 600 2 1).alertsGenerated = 2 from rfl] at hcontra
    exact absurd hcontra (by decide)

/-- C4 amended: the batch file processor runs the same analyzer per
sampled frame but then persists the candidate directly — skipping the
cooldown gate and the evidence-snapshot write of the live chain — so two
sampled frames that each trigger a No-Hard-Hat candidate for the same
camera within one 30-second window yield TWO persisted alerts in a batch
run, where the live worker chain yields exactly one. -/
theorem batch_persists_each_candidate_without_gate (ac : AlertCreateM)
    (t1 t2 : Nat) (dtOf : Nat → DateTimeM) (cameraId locationId : String)
    (h : t2 - t1 < 30) :
    (processSampledFrameBatch (some (mkAnalysis ac)) (dtOf t1) true).isSome
        = true ∧
    (processSampledFrameBatch (some (mkAnalysis ac)) (dtOf t2) true).isSome
        = true ∧
    (runLive dtOf cameraId locationId 30 (fun _ => none)
        [(mkAnalysis ac, t1), (mkAnalysis ac, t2)]).2 = 1 := by
  refine ⟨?_, ?_, ?_⟩
  · simp [processSampledFrameBatch, mkAnalysis, createAlertService]
  · simp [processSampledFrameBatch, mkAnalysis, createAlertService]
  · simp [runLive, processFrameLive, mkAnalysis, shouldCreateAlert, pvTruthy,
      cooldownAllows, updateLastAlert, createAlertFromAnalysis, saveSnapshot,
      createAlertService, h]

/-- Witness for C4 amended at concrete frames 1 second apart. -/
theorem batch_persists_each_candidate_without_gate_witness :
    (processSampledFrameBatch (some (mkAnalysis sampleCandidate))
        ((fun _ => sampleTime) 0) true).isSome = true ∧
    (processSampledFrameBatch (some (mkAnalysis sampleCandidate))
        ((fun _ => sampleTime) 1) true).isSome = true ∧
    (runLive (fun _ => sampleTime) "CAM-1" "loc" 30 (fun _ => none)
        [(mkAnalysis sampleCandidate, 0), (mkAnalysis sampleCandidate, 1)]).2
      = 1 :=
  batch_persists_each_candidate_without_gate sampleCandidate 0 1
    (fun _ => sampleTime) "CAM-1" "loc" (by decide)

/-- With every top-of-loop clock reading inside the deadline and enough
fuel, the batch frame loop reads the file to EndOfStream. -/
theorem fileLoop_reads_to_end (times : Nat → Nat)
    (analysisAt : Nat → Option AnalysisResult) (dtOf : Nat → DateTimeM)
    (persistOk : Bool) (maxTime totalFrames frameSkip : Nat) :
    ∀ (fuel frameCount alerts : Nat) (progress : ℚ),
      frameCount ≤ totalFrames → totalFrames - frameCount < fuel →
      (∀ k, frameCount ≤ k → k ≤ totalFrames → times k ≤ maxTime) →
      (fileLoop times analysisAt dtOf persistOk maxTime totalFrames frameSkip
        fuel frameCount alerts progress).1 = totalFrames := by
  intro fuel
  induction fuel with
  | zero => intro fc alerts progress h1 h2 h3; omega
  | succ fuel ih =>
    intro fc alerts progress h1 h2 h3
    have hnot : ¬ times fc > maxTime := by
      have := h3 fc (le_refl fc) h1; omega
    simp only [fileLoop]
    rw [if_neg hnot]
    by_cases heq : fc = totalFrames
    · rw [if_pos heq]; exact heq
    · rw [if_neg heq]
      exact ih (fc + 1) _ _ (by omega) (by omega)
        (fun k hk1 hk2 => h3 k (by omega) hk2)

/-- If the clock first exceeds the deadline at the check made after `i0`
frames were read (and EndOfStream has not occurred by then), the loop
halts right there: exactly `i0` frames are read — no frame is read past
the first top-of-loop deadline check after the deadline. -/
theorem fileLoop_halts_at_deadline (times : Nat → Nat)
    (analysisAt : Nat → Option AnalysisResult) (dtOf : Nat → DateTimeM)
    (persistOk : Bool) (maxTime totalFrames frameSkip i0 : Nat) :
    ∀ (fuel frameCount alerts : Nat) (progress : ℚ),
      frameCount ≤ i0 → i0 ≤ totalFrames → i0 - frameCount < fuel →
      (∀ k, k < i0 → times k ≤ maxTime) → times i0 > maxTime →
      (fileLoop times analysisAt dtOf persistOk maxTime totalFrames frameSkip
        fuel frameCount alerts progress).1 = i0 := by
  intro fuel
  induction fuel with
  | zero => intro fc alerts progress h1 h2 h3 h4 h5; omega
  | succ fuel ih =>
    intro fc alerts progress h1 h2 h3 h4 h5
    by_cases heq : fc = i0
    · subst heq
      simp only [fileLoop]
      rw [if_pos h5]
    · have hlt : fc < i0 := by omega
      have hnot : ¬ times fc > maxTime := by have := h4 fc hlt; omega
      simp only [fileLoop]
      rw [if_neg hnot, if_neg (show ¬ fc = totalFrames by omega)]
      exact ih (fc + 1) _ _ (by omega) h2 (by omega) h4 h5

/-- C3 amended: a batch job that reaches EndOfStream with every deadline
check (including the final one) inside the wall-clock budget terminates
Completed with reported progress 100 having read all frames; a job whose
top-of-loop check first crosses the deadline after `i0` frames stops
reading right at that check and terminates TimedOut — but with reported
progress = 100, not < 100, because the final-status block writes
`processing_progress = 100` unconditionally. -/
theorem batch_deadline_behavior (times : Nat → Nat) (finalTime : Nat)
    (analysisAt : Nat → Option AnalysisResult) (dtOf : Nat → DateTimeM)
    (persistOk : Bool) (maxTime totalFrames frameSkip : Nat) :
    ((∀ k, k ≤ totalFrames → times k ≤ maxTime) → finalTime ≤ maxTime →
      (processVideoFile times finalTime analysisAt dtOf persistOk maxTime
          totalFrames frameSkip).status = UploadStatus.completed ∧
      (processVideoFile times finalTime analysisAt dtOf persistOk maxTime
          totalFrames frameSkip).framesRead = totalFrames ∧
      (processVideoFile times finalTime analysisAt dtOf persistOk maxTime
          totalFrames frameSkip).progress = 100) ∧
    (∀ i0, (∀ k, k < i0 → times k ≤ maxTime) → times i0 > maxTime →
      i0 ≤ totalFrames → maxTime < finalTime →
      (processVideoFile times finalTime analysisAt dtOf persistOk maxTime
          totalFrames frameSkip).status = UploadStatus.timeout ∧
      (processVideoFile times finalTime analysisAt dtOf persistOk maxTime
          totalFrames frameSkip).framesRead = i0 ∧
      (processVideoFile times finalTime analysisAt dtOf persistOk maxTime
          totalFrames frameSkip).progress = 100) := by
  constructor
  · intro hin hfin
    refine ⟨?_, ?_, rfl⟩
    · simp only [processVideoFile]
      rw [if_neg (show ¬ finalTime > maxTime by omega)]
    · simp only [processVideoFile]
      exact fileLoop_reads_to_end times analysisAt dtOf persistOk maxTime
        totalFrames frameSkip (totalFrames + 1) 0 0 0 (Nat.zero_le _)
        (by omega) (fun k _ hk2 => hin k hk2)
  · intro i0 hin hcross hle hfin
    refine ⟨?_, ?_, rfl⟩
    · simp only [processVideoFile]
      rw [if_pos (show finalTime > maxTime by omega)]
    · simp only [processVideoFile]
      exact fileLoop_halts_at_deadline times analysisAt dtOf persistOk maxTime
        totalFrames frameSkip i0 (totalFrames + 1) 0 0 0 (Nat.zero_le _) hle
        (by omega) hin hcross

/-- Witness for C3 amended: a 3-frame file finishing inside the deadline
completes with progress 100; a run whose clock crosses the deadline
after 2 frames times out, halts at 2 frames read, and still reports
progress 100. -/
theorem batch_deadline_behavior_witness :
    ((processVideoFile (fun _ => 1) 1 (fun _ => none) (fun _ => sampleTime)
        true 600 3 1).status = UploadStatus.completed ∧
      (processVideoFile (fun _ => 1) 1 (fun _ => none) (fun _ => sampleTime)
        true 600 3 1).framesRead = 3 ∧
      (processVideoFile (fun _ => 1) 1 (fun _ => none) (fun _ => sampleTime)
        true 600 3 1).progress = 100) ∧
    ((processVideoFile (fun k => if k < 2 then 0 else 900) 900 (fun _ => none)
        (fun _ => sampleTime) true 600 10 1).status = UploadStatus.timeout ∧
      (processVideoFile (fun k => if k < 2 then 0 else 900) 900 (fun _ => none)
        (fun _ => sampleTime) true 600 10 1).framesRead = 2 ∧
      (processVideoFile (fun k => if k < 2 then 0 else 900) 900 (fun _ => none)
        (fun _ => sampleTime) true 600 10 1).progress = 100) :=
  ⟨(batch_deadline_behavior (fun _ => 1) 1 (fun _ => none) (fun _ => sampleTime)
      true 600 3 1).1 (fun k _ => by omega) (by omega),
    (batch_deadline_behavior (fun k => if k < 2 then 0 else 900) 900
      (fun _ => none) (fun _ => sampleTime) true 600 10 1).2 2
      (fun k hk => by simp [hk]) (by decide) (by omega) (by omega)⟩

/-- C3 counterexample: a batch run that exceeds its deadline terminates
TimedOut, yet its reported progress is 100 — not strictly below 100 as
claimed — because the final-status block overwrites progress with 100
on every exit path. -/
theorem batch_timeout_progress_below_100_refuted :
    (processVideoFile (fun _ => 700) 700 (fun _ => none) (fun _ => sampleTime)
        true 600 10 1).status = UploadStatus.timeout ∧
    ¬ ((processVideoFile (fun _ => 700) 700 (fun _ => none)
          (fun _ => sampleTime) true 600 10 1).progress < 100) := by
  constructor
  · rfl
  · rw [show (processVideoFile (fun _ => 700) 700 (fun _ => none)
        (fun _ => sampleTime) true 600 10 1).progress = 100 from rfl]
    simp

/-- One worker's alert chunk contains exactly one No-Hard-Hat candidate
when no hard hat is near the worker's centre, and none otherwise. -/
theorem countP_workerAlerts_hard_hat (ppeItems machinery : List Detection)
    (cameraId locationId : String) (w : Detection) :
    (workerAlerts ppeItems machinery cameraId locationId w).countP
        (fun a => a.violation_type = ViolationType.NO_HARD_HAT) =
      if hasNearbyPPE (getBboxCenter w.bbox) ppeItems ObjectType.HARD_HAT
        then 0 else 1 := by
  simp only [workerAlerts]
  rw [List.countP_append, List.countP_append]
  have hprox : (machinery.filterMap fun machine =>
      if checkUnsafeProximity w.bbox machine.bbox then
        some (createProximityViolationAlert w machine cameraId locationId)
      else none).countP
        (fun a => a.violation_type = ViolationType.NO_HARD_HAT) = 0 := by
    apply List.countP_eq_zero.mpr
    intro a ha
    obtain ⟨machine, _, hma⟩ := List.mem_filterMap.mp ha
    by_cases hc : checkUnsafeProximity w.bbox machine.bbox <;>
      simp [hc] at hma <;> simp [← hma, createProximityViolationAlert]
  rw [hprox]
  by_cases hh : hasNearbyPPE (getBboxCenter w.bbox) ppeItems ObjectType.HARD_HAT <;>
    by_cases hv : hasNearbyPPE (getBboxCenter w.bbox) ppeItems ObjectType.SAFETY_VEST <;>
    simp [hh, hv, createPpeViolationAlert]

/-- One worker's alert chunk contains exactly one No-Safety-Vest
candidate when no safety vest is near the worker's centre, and none
otherwise. -/
theorem countP_workerAlerts_vest (ppeItems machinery : List Detection)
    (cameraId locationId : String) (w : Detection) :
    (workerAlerts ppeItems machinery cameraId locationId w).countP
        (fun a => a.violation_type = ViolationType.NO_SAFETY_VEST) =
      if hasNearbyPPE (getBboxCenter w.bbox) ppeItems ObjectType.SAFETY_VEST
        then 0 else 1 := by
  simp only [workerAlerts]
  rw [List.countP_append, List.countP_append]
  have hprox : (machinery.filterMap fun machine =>
      if checkUnsafeProximity w.bbox machine.bbox then
        some (createProximityViolationAlert w machine cameraId locationId)
      else none).countP
        (fun a => a.violation_type = ViolationType.NO_SAFETY_VEST) = 0 := by
    apply List.countP_eq_zero.mpr
    intro a ha
    obtain ⟨machine, _, hma⟩ := List.mem_filterMap.mp ha
    by_cases hc : checkUnsafeProximity w.bbox machine.bbox <;>
      simp [hc] at hma <;> simp [← hma, createProximityViolationAlert]
  rw [hprox]
  by_cases hh : hasNearbyPPE (getBboxCenter w.bbox) ppeItems ObjectType.HARD_HAT <;>
    by_cases hv : hasNearbyPPE (getBboxCenter w.bbox) ppeItems ObjectType.SAFETY_VEST <;>
    simp [hh, hv, createPpeViolationAlert]

/-- The environmental sections of the analyzer contribute no PPE
candidates: spill candidates carry SPILL, exit candidates BLOCKED_EXIT. -/
theorem countP_env_sections_ppe (dets : List Detection)
    (cameraId locationId : String) (vt : ViolationType)
    (hvt : vt = ViolationType.NO_HARD_HAT ∨ vt = ViolationType.NO_SAFETY_VEST) :
    ((dets.filter (fun d => d.type = ObjectType.SPILL)).map (fun spill =>
        createEnvironmentalHazardAlert spill true cameraId locationId)).countP
      (fun a => a.violation_type = vt) = 0 ∧
    ((dets.filter (fun d => d.type = ObjectType.EMERGENCY_EXIT)).filterMap
        (fun exitObj =>
          if isExitBlocked exitObj.bbox dets then
            some (createEnvironmentalHazardAlert exitObj false cameraId
              locationId)
          else none)).countP (fun a => a.violation_type = vt) = 0 := by
  constructor
  · apply List.countP_eq_zero.mpr
    intro a ha
    obtain ⟨s, _, hsa⟩ := List.mem_map.mp ha
    rcases hvt with h | h <;>
      simp [← hsa, createEnvironmentalHazardAlert, h]
  · apply List.countP_eq_zero.mpr
    intro a ha
    obtain ⟨e, _, hea⟩ := List.mem_filterMap.mp ha
    by_cases hb : isExitBlocked e.bbox dets <;> simp [hb] at hea <;>
      rcases hvt with h | h <;>
      simp [← hea, createEnvironmentalHazardAlert, h]

/-- Sum of a per-element 0/1 weight equals a countP. -/
theorem sum_map_eq_countP (l : List α) (q : α → Bool) (f : α → Nat)
    (hf : ∀ a ∈ l, f a = if q a then 1 else 0) :
    (l.map f).sum = l.countP q := by
  induction l with
  | nil => rfl
  | cons a l ih =>
    rw [List.map_cons, List.sum_cons, List.countP_cons,
      hf a (List.mem_cons_self a l), ih (fun x hx => hf x (List.mem_cons_of_mem _ hx))]
    by_cases hq : q a <;> simp [hq] <;> omega

/-- Every PPE candidate in the analyzer's output originates from a
detected worker lacking the corresponding PPE class near its centre. -/
theorem mem_analyze_ppe_provenance (dets : List Detection)
    (cameraId locationId : String) (al : AlertCreateM)
    (hal : al ∈ analyzeSafetyViolations dets cameraId locationId)
    (hvt : al.violation_type = ViolationType.NO_HARD_HAT ∨
      al.violation_type = ViolationType.NO_SAFETY_VEST) :
    al.severity_level = SeverityLevel.HIGH ∧
    ∃ w ∈ dets.filter (fun d => d.type = ObjectType.WORKER),
      al.primary_object.bounding_box = w.bbox ∧
      ((al.violation_type = ViolationType.NO_HARD_HAT ∧
          hasNearbyPPE (getBboxCenter w.bbox)
            (dets.filter (fun d => isPpeType d.type)) ObjectType.HARD_HAT
            = false) ∨
        (al.violation_type = ViolationType.NO_SAFETY_VEST ∧
          hasNearbyPPE (getBboxCenter w.bbox)
            (dets.filter (fun d => isPpeType d.type)) ObjectType.SAFETY_VEST
            = false)) := by
  simp only [analyzeSafetyViolations] at hal
  rcases List.mem_append.mp hal with h | hexit
  · rcases List.mem_append.mp h with hflat | hspill
    · obtain ⟨w, hw, hchunk⟩ := List.mem_flatMap.mp hflat
      simp only [workerAlerts] at hchunk
      rcases List.mem_append.mp hchunk with hc | hprox
      · rcases List.mem_append.mp hc with hhh | hvv
        · by_cases hh : hasNearbyPPE (getBboxCenter w.bbox)
              (dets.filter (fun d => isPpeType d.type)) ObjectType.HARD_HAT
          · simp [hh] at hhh
          · simp only [hh, Bool.not_false, if_true] at hhh
            rw [List.mem_singleton] at hhh
            subst hhh
            refine ⟨rfl, w, hw, rfl, Or.inl ⟨?_, ?_⟩⟩
            · simp [createPpeViolationAlert]
            · simp [hh]
        · by_cases hv : hasNearbyPPE (getBboxCenter w.bbox)
              (dets.filter (fun d => isPpeType d.type)) ObjectType.SAFETY_VEST
          · simp [hv] at hvv
          · simp only [hv, Bool.not_false, if_true] at hvv
            rw [List.mem_singleton] at hvv
            subst hvv
            refine ⟨rfl, w, hw, rfl, Or.inr ⟨?_, ?_⟩⟩
            · simp [createPpeViolationAlert]
            · simp [hv]
      · obtain ⟨machine, _, hma⟩ := List.mem_filterMap.mp hprox
        by_cases hc : checkUnsafeProximity w.bbox machine.bbox <;>
          simp [hc] at hma
        rcases hvt with h | h <;>
          rw [← hma] at h <;>
          exact absurd h (by simp [createProximityViolationAlert])
    · obtain ⟨s, _, hsa⟩ := List.mem_map.mp hspill
      rcases hvt with h | h <;>
        rw [← hsa] at h <;>
        exact absurd h (by simp [createEnvironmentalHazardAlert])
  · obtain ⟨e, _, hea⟩ := List.mem_filterMap.mp hexit
    by_cases hb : isExitBlocked e.bbox dets <;> simp [hb] at hea
    rcases hvt with h | h <;>
      rw [← hea] at h <;>
      exact absurd h (by simp [createEnvironmentalHazardAlert])

/-- C6: the analyzer emits one severity-High PPE candidate per required
class (hard hat, safety vest) for exactly those detected workers with no
co-detected PPE item of that class strictly within 100 px (Euclidean, on
integer bounding-box centres) of the worker's centre — the No-Hard-Hat
(resp. No-Safety-Vest) candidate count equals the unprotected-worker
count, every such candidate is severity High, and each carries the
bounding box of an unprotected worker. -/
theorem ppe_candidates_iff_unprotected_worker (dets : List Detection)
    (cameraId locationId : String) :
    ((analyzeSafetyViolations dets cameraId locationId).countP
        (fun a => a.violation_type = ViolationType.NO_HARD_HAT) =
      (dets.filter (fun d => d.type = ObjectType.WORKER)).countP
        (fun w => !hasNearbyPPE (getBboxCenter w.bbox)
          (dets.filter (fun d => isPpeType d.type)) ObjectType.HARD_HAT)) ∧
    ((analyzeSafetyViolations dets cameraId locationId).countP
        (fun a => a.violation_type = ViolationType.NO_SAFETY_VEST) =
      (dets.filter (fun d => d.type = ObjectType.WORKER)).countP
        (fun w => !hasNearbyPPE (getBboxCenter w.bbox)
          (dets.filter (fun d => isPpeType d.type)) ObjectType.SAFETY_VEST)) ∧
    (∀ al ∈ analyzeSafetyViolations dets cameraId locationId,
      (al.violation_type = ViolationType.NO_HARD_HAT ∨
        al.violation_type = ViolationType.NO_SAFETY_VEST) →
      al.severity_level = SeverityLevel.HIGH ∧
      ∃ w ∈ dets.filter (fun d => d.type = ObjectType.WORKER),
        al.primary_object.bounding_box = w.bbox) := by
  refine ⟨?_, ?_, ?_⟩
  · simp only [analyzeSafetyViolations]
    rw [List.countP_append, List.countP_append, List.countP_flatMap,
      (countP_env_sections_ppe dets cameraId locationId
        ViolationType.NO_HARD_HAT (Or.inl rfl)).1,
      (countP_env_sections_ppe dets cameraId locationId
        ViolationType.NO_HARD_HAT (Or.inl rfl)).2,
      sum_map_eq_countP _
        (fun w => !hasNearbyPPE (getBboxCenter w.bbox)
          (dets.filter (fun d => isPpeType d.type)) ObjectType.HARD_HAT) _
        (fun w _ => by
          rw [Function.comp_apply, countP_workerAlerts_hard_hat]
          by_cases hh : hasNearbyPPE (getBboxCenter w.bbox)
              (dets.filter (fun d => isPpeType d.type)) ObjectType.HARD_HAT <;>
            simp [hh])]
    omega
  · simp only [analyzeSafetyViolations]
    rw [List.countP_append, List.countP_append, List.countP_flatMap,
      (countP_env_sections_ppe dets cameraId locationId
        ViolationType.NO_SAFETY_VEST (Or.inr rfl)).1,
      (countP_env_sections_ppe dets cameraId locationId
        ViolationType.NO_SAFETY_VEST (Or.inr rfl)).2,
      sum_map_eq_countP _
        (fun w => !hasNearbyPPE (getBboxCenter w.bbox)
          (dets.filter (fun d => isPpeType d.type)) ObjectType.SAFETY_VEST) _
        (fun w _ => by
          rw [Function.comp_apply, countP_workerAlerts_vest]
          by_cases hv : hasNearbyPPE (getBboxCenter w.bbox)
              (dets.filter (fun d => isPpeType d.type)) ObjectType.SAFETY_VEST <;>
            simp [hv])]
    omega
  · intro al hal hvt
    obtain ⟨hsev, w, hw, hbbox, _⟩ :=
      mem_analyze_ppe_provenance dets cameraId locationId al hal hvt
    exact ⟨hsev, w, hw, hbbox⟩

/-- Witness for C6 on a one-worker frame with no PPE: the hard-hat
candidate count matches the unprotected-worker count, and the emitted
hard-hat candidate is severity High and carries the worker's box. -/
theorem ppe_candidates_iff_unprotected_worker_witness :
    ((analyzeSafetyViolations [sampleWorkerDetection] "CAM-1" "loc").countP
        (fun a => a.violation_type = ViolationType.NO_HARD_HAT) =
      ([sampleWorkerDetection].filter
          (fun d => d.type = ObjectType.WORKER)).countP
        (fun w => !hasNearbyPPE (getBboxCenter w.bbox)
          ([sampleWorkerDetection].filter (fun d => isPpeType d.type))
          ObjectType.HARD_HAT)) ∧
    ((createPpeViolationAlert sampleWorkerDetection ObjectType.HARD_HAT
          "CAM-1" "loc").severity_level = SeverityLevel.HIGH ∧
      ∃ w ∈ [sampleWorkerDetection].filter
          (fun d => d.type = ObjectType.WORKER),
        (createPpeViolationAlert sampleWorkerDetection ObjectType.HARD_HAT
          "CAM-1" "loc").primary_object.bounding_box = w.bbox) :=
  ⟨(ppe_candidates_iff_unprotected_worker [sampleWorkerDetection] "CAM-1"
      "loc").1,
    (ppe_candidates_iff_unprotected_worker [sampleWorkerDetection] "CAM-1"
      "loc").2.2
      (createPpeViolationAlert sampleWorkerDetection ObjectType.HARD_HAT
        "CAM-1" "loc") (by decide) (by decide)⟩

/-- C7 evaluation at the failing input: with a single detected emergency
exit and NO other detection at all, `_is_exit_blocked` still reports the
exit blocked — the exit itself is a non-person detection at distance 0 of
its own centre — and the analyzer emits a Blocked Exit candidate, where
the claim (some OTHER non-person detection within 80 px) demands none. -/
theorem lone_exit_reported_blocked :
    isExitBlocked loneExitDetection.bbox [loneExitDetection] = true ∧
    (analyzeSafetyViolations [loneExitDetection] "CAM-1" "loc").countP
      (fun a => a.violation_type = ViolationType.BLOCKED_EXIT) = 1 := by
  decide

/-- C9 counterexample: two distinct alert-creation calls — different
candidate payloads, persisted in the same UTC second — produce two
different alert documents carrying the SAME alert_id: the id is the
creation second, not globally unique. -/
theorem alert_id_global_uniqueness_refuted :
    createAlertService sampleTime true sampleCandidate ≠
      createAlertService sampleTime true sampleVestCandidate ∧
    (createAlertService sampleTime true sampleCandidate).map
        AlertDoc.alert_id =
      (createAlertService sampleTime true sampleVestCandidate).map
        AlertDoc.alert_id := by
  constructor
  · decide
  · decide

/-- The fixed-width rendering has the announced width. -/
theorem padDigits_length (w : Nat) : ∀ n, (padDigits w n).length = w := by
  induction w with
  | zero => intro n; rfl
  | succ w ih =>
    intro n
    simp [padDigits, ih]

/-- `Nat.digitChar` separates digits below 10. -/
theorem digitChar_inj_below_ten :
    ∀ a, a < 10 → ∀ b, b < 10 → Nat.digitChar a = Nat.digitChar b → a = b := by
  decide

/-- Fixed-width decimal rendering is injective on values in range. -/
theorem padDigits_inj (w : Nat) :
    ∀ n m, n < 10 ^ w → m < 10 ^ w → padDigits w n = padDigits w m → n = m := by
  induction w with
  | zero =>
    intro n m hn hm _
    simp only [pow_zero, Nat.lt_one_iff] at hn hm
    omega
  | succ w ih =>
    intro n m hn hm h
    simp only [padDigits] at h
    obtain ⟨h1, h2⟩ := List.append_inj h
      (by rw [padDigits_length, padDigits_length])
    rw [pow_succ] at hn hm
    have e1 : n / 10 = m / 10 :=
      ih _ _ ((Nat.div_lt_iff_lt_mul (by omega)).mpr hn)
        ((Nat.div_lt_iff_lt_mul (by omega)).mpr hm) h1
    have e2 : n % 10 = m % 10 :=
      digitChar_inj_below_ten _ (Nat.mod_lt _ (by omega)) _
        (Nat.mod_lt _ (by omega)) (by injection h2)
    omega

/-- The character data underlying a generated alert id. -/
theorem mkAlertId_data (t : DateTimeM) :
    (mkAlertId t).data = 'A' :: 'L' :: '-' ::
      (padDigits 4 t.year ++ (padDigits 2 t.month ++ (padDigits 2 t.day ++
        ('-' :: (padDigits 2 t.hour ++ (padDigits 2 t.minute ++
          padDigits 2 t.second)))))) := by
  simp [mkAlertId, padNum, String.data_append, List.append_assoc]

/-- C9 amended: the generated alert_id is `AL-<UTC date>-<HHMMSS>`,
determined solely by the creation second — two creation calls in the
same UTC second receive the same id regardless of payloads (so the id is
NOT globally unique), while calls whose timestamps differ in any field
(within the fields' decimal widths) receive distinct ids. -/
theorem alert_id_unique_per_second (t1 t2 : DateTimeM) (d1 d2 : AlertCreateM)
    (h1y : t1.year < 10 ^ 4) (h1mo : t1.month < 10 ^ 2)
    (h1d : t1.day < 10 ^ 2) (h1h : t1.hour < 10 ^ 2)
    (h1mi : t1.minute < 10 ^ 2) (h1s : t1.second < 10 ^ 2)
    (h2y : t2.year < 10 ^ 4) (h2mo : t2.month < 10 ^ 2)
    (h2d : t2.day < 10 ^ 2) (h2h : t2.hour < 10 ^ 2)
    (h2mi : t2.minute < 10 ^ 2) (h2s : t2.second < 10 ^ 2)
    (hne : t1 ≠ t2) :
    mkAlertId t1 ≠ mkAlertId t2 ∧
    (createAlertService t1 true d1).map AlertDoc.alert_id =
      (createAlertService t1 true d2).map AlertDoc.alert_id := by
  constructor
  · intro he
    apply hne
    have hd : (mkAlertId t1).data = (mkAlertId t2).data := by rw [he]
    rw [mkAlertId_data, mkAlertId_data] at hd
    simp only [List.cons.injEq, true_and] at hd
    obtain ⟨hy, hd2⟩ := List.append_inj hd
      (by rw [padDigits_length, padDigits_length])
    obtain ⟨hmo, hd3⟩ := List.append_inj hd2
      (by rw [padDigits_length, padDigits_length])
    obtain ⟨hdd, hd4⟩ := List.append_inj hd3
      (by rw [padDigits_length, padDigits_length])
    simp only [List.cons.injEq, true_and] at hd4
    obtain ⟨hh, hd5⟩ := List.append_inj hd4
      (by rw [padDigits_length, padDigits_length])
    obtain ⟨hmi, hs⟩ := List.append_inj hd5
      (by rw [padDigits_length, padDigits_length])
    have ey := padDigits_inj 4 _ _ h1y h2y hy
    have emo := padDigits_inj 2 _ _ h1mo h2mo hmo
    have ed := padDigits_inj 2 _ _ h1d h2d hdd
    have eh := padDigits_inj 2 _ _ h1h h2h hh
    have emi := padDigits_inj 2 _ _ h1mi h2mi hmi
    have es := padDigits_inj 2 _ _ h1s h2s hs
    cases t1
    cases t2
    simp only [DateTimeM.mk.injEq]
    exact ⟨ey, emo, ed, eh, emi, es⟩
  · simp [createAlertService]

/-- Witness for C9 amended: timestamps one second apart give distinct
ids; two payloads in the same second share an id. -/
theorem alert_id_unique_per_second_witness :
    mkAlertId sampleTime ≠
      mkAlertId { sampleTime with second := 6 } ∧
    (createAlertService sampleTime true sampleCandidate).map
        AlertDoc.alert_id =
      (createAlertService sampleTime true sampleVestCandidate).map
        AlertDoc.alert_id :=
  alert_id_unique_per_second sampleTime { sampleTime with second := 6 }
    sampleCandidate sampleVestCandidate (by decide) (by decide) (by decide)
    (by decide) (by decide) (by decide) (by decide) (by decide) (by decide)
    (by decide) (by decide) (by decide) (by decide)

end Theorems

end SafetyAI
